import Mathlib

/-!
# LineDrawing: a verification development for `src/LineDrawing/main.cpp`

The program opens a window, builds a two-shader program, uploads two vertices,
and draws one line per frame until the window's close flag is set.

Embedding.  The program's variables together with the part of the windowing and
rendering library state that the program's calls request are one record,
`World`.  Every library call of the source is a function on `World` that also
appends itself to `World.calls`, so the order of calls of the source can be read
back.  What the libraries answer at start-up (window creation, loader, compile
and link status, info logs) is an input, `Env`; what the windowing system
delivers during `glfwPollEvents` is an input too, one list of `Event`s per
loop iteration.  Floating point values are exact rationals; a float array with
an element that is not a finite number (the result of `2.0f / 0`) is
`Floats.nonfinite`.

The libraries themselves are not part of the source.  A call is taken to do
what it asks for: `glUseProgram p` makes `p` current, `glUniformMatrix4fv`
stores into the current program, `glBufferData` into the bound buffer, and so
on.  The statuses in `Env` decide only what the source branches on, which is
whether a diagnostic is printed.  The resize callback runs only while
`glfwPollEvents` runs.
-/

namespace LineDrawing

/-! ## Constants and projection matrices -/

/-- Source line 10: `constexpr unsigned int width = 800;`. -/
def width : Nat := 800

/-- Source line 11: `constexpr unsigned int height = 600;`. -/
def height : Nat := 600

/-- Source lines 110-115: the local array `ortho` of `main`, built from the
unsigned constants `width` and `height`; neither is 0, so every element is
finite. -/
def main.ortho : List ℚ :=
  [2 / (width : ℚ), 0,                 0, 0,
   0,               2 / (height : ℚ),  0, 0,
   0,               0,                 1, 0,
   0,               0,                 0, 1]

/-- Source lines 144-149: the entries of the local array `ortho` of
`framebuffer_size_callback`, built from the signed parameters `width` and
`height`, for parameters that are not 0.  For a parameter 0 the array of the
source is `framebuffer_size_callback.ortho_floats`, not this list. -/
def framebuffer_size_callback.ortho (width height : Int) : List ℚ :=
  [2 / (width : ℚ), 0,                 0, 0,
   0,               2 / (height : ℚ),  0, 0,
   0,               0,                 1, 0,
   0,               0,                 0, 1]

/-- A float array as the source hands it to the library: exact rationals when
every element is a finite number, `nonfinite` when some element is an infinity
or not a number. -/
inductive Floats where
  | finite (values : List ℚ)
  | nonfinite
  deriving DecidableEq, Repr

/-- Source lines 144-149: the local array `ortho` as `framebuffer_size_callback`
builds it.  The float divisions `2.0f / width` and `2.0f / height` give an
infinity for a divisor 0 and a finite number for any other divisor. -/
def framebuffer_size_callback.ortho_floats (width height : Int) : Floats :=
  if width = 0 ∨ height = 0 then Floats.nonfinite
  else Floats.finite (framebuffer_size_callback.ortho width height)

/-- Entry `[i][j]` of a 16-entry array read as four rows of four, in the order
the initialiser is written. -/
def entry (m : List ℚ) (i j : Fin 4) : ℚ :=
  m.getD (4 * i.val + j.val) 0

/-- A four-component vector (`vec4`). -/
structure Vec4 where
  x : ℚ
  y : ℚ
  z : ℚ
  w : ℚ
  deriving DecidableEq, Repr

/-- Product `mat4 * vec4` of the shading language for a matrix uploaded with
`transpose = false`: the 16 floats are read column by column, so component `i`
of the result is the sum over `j` of `m[4*j + i] * v[j]`. -/
def mat4_mul_vec4 (m : List ℚ) (v : Vec4) : Vec4 :=
  { x := m.getD 0 0 * v.x + m.getD 4 0 * v.y + m.getD 8 0 * v.z + m.getD 12 0 * v.w
    y := m.getD 1 0 * v.x + m.getD 5 0 * v.y + m.getD 9 0 * v.z + m.getD 13 0 * v.w
    z := m.getD 2 0 * v.x + m.getD 6 0 * v.y + m.getD 10 0 * v.z + m.getD 14 0 * v.w
    w := m.getD 3 0 * v.x + m.getD 7 0 * v.y + m.getD 11 0 * v.z + m.getD 15 0 * v.w }

/-- Source lines 13-20, the vertex shader's `main`:
`gl_Position = projection * vec4(pos, 1.0);`. -/
def vertex_shader_main (projection : List ℚ) (pos : ℚ × ℚ × ℚ) : Vec4 :=
  mat4_mul_vec4 projection { x := pos.1, y := pos.2.1, z := pos.2.2, w := 1 }

/-! ## Inputs from the environment -/

/-- What the libraries answer during start-up.  These are the only library
results the source branches on before the loop. -/
structure Env where
  /-- `glfwCreateWindow` returned a non-null window (line 38). -/
  window_created : Bool
  /-- `gladLoadGLLoader` returned non-zero (line 47). -/
  loader_ok : Bool
  /-- `GL_COMPILE_STATUS` of the vertex shader (line 59). -/
  vertex_compiled : Bool
  /-- `GL_COMPILE_STATUS` of the fragment shader (line 70). -/
  fragment_compiled : Bool
  /-- `GL_LINK_STATUS` of the program (line 83). -/
  linked : Bool
  /-- Text `glGetShaderInfoLog` writes for the vertex shader. -/
  vertex_log : String
  /-- Text `glGetShaderInfoLog` writes for the fragment shader. -/
  fragment_log : String
  /-- Text `glGetProgramInfoLog` writes for the program. -/
  link_log : String
  deriving DecidableEq, Repr

/-- What the windowing system delivers to the window while `glfwPollEvents`
runs. -/
inductive Event where
  /-- The framebuffer was resized: the installed callback is invoked. -/
  | framebufferSize (width height : Int)
  /-- The Escape key went down (`true`) or up (`false`). -/
  | escapeKey (pressed : Bool)
  /-- The user asked to close the window. -/
  | closeRequested
  deriving DecidableEq, Repr

/-! ## Library calls -/

/-- Shader stage passed to `glCreateShader`. -/
inductive ShaderKind where
  | vertex
  | fragment
  deriving DecidableEq, Repr

/-- Hint passed to `glfwWindowHint` (lines 34-36). -/
inductive WindowHint where
  | contextVersionMajor (v : Nat)
  | contextVersionMinor (v : Nat)
  | openglCoreProfile
  deriving DecidableEq, Repr

/-- One call to the windowing or rendering library, with the arguments the
source passes. -/
inductive Call where
  | glfwInit
  | glfwWindowHint (hint : WindowHint)
  | glfwCreateWindow (width height : Nat) (title : String)
  | glfwTerminate
  | glfwMakeContextCurrent
  | glfwSetFramebufferSizeCallback
  | gladLoadGLLoader
  | glCreateShader (kind : ShaderKind)
  | glShaderSource (shader : Nat) (source : String)
  | glCompileShader (shader : Nat)
  | glGetShaderiv (shader : Nat)
  | glGetShaderInfoLog (shader : Nat)
  | glCreateProgram
  | glAttachShader (program shader : Nat)
  | glLinkProgram (program : Nat)
  | glGetProgramiv (program : Nat)
  | glGetProgramInfoLog (program : Nat)
  | glDeleteShader (shader : Nat)
  | glGenVertexArrays
  | glGenBuffers
  | glBindVertexArray (array : Nat)
  | glBindBuffer (buffer : Nat)
  | glBufferData (data : List ℚ)
  | glVertexAttribPointer (index size stride offset : Nat)
  | glEnableVertexAttribArray (index : Nat)
  | glUseProgram (program : Nat)
  | glGetUniformLocation (program : Nat) (name : String)
  | glUniformMatrix4fv (location : Int) (value : Floats)
  | glfwWindowShouldClose
  | glfwGetKey
  | glfwSetWindowShouldClose (value : Bool)
  | glClearColor (r g b a : ℚ)
  | glClear
  | glDrawArrays (first count : Nat)
  | glfwPollEvents
  | glfwSwapBuffers
  | glViewport (x y width height : Int)
  | glDeleteVertexArrays (array : Nat)
  | glDeleteBuffers (buffer : Nat)
  | glDeleteProgram (program : Nat)
  deriving DecidableEq, Repr

/-! ## State -/

/-- Program variables, requested library state, output and call history. -/
structure World where
  /-- Global `shader_program` (line 30). -/
  shader_program : Nat
  /-- Local `vertex_shader` of `main` (line 53). -/
  vertex_shader : Nat
  /-- Local `fragment_shader` of `main` (line 66). -/
  fragment_shader : Nat
  /-- Local `vao` of `main` (line 96). -/
  vao : Nat
  /-- Local `vbo` of `main` (line 96). -/
  vbo : Nat
  /-- The window's close flag. -/
  should_close : Bool
  /-- Last reported state of the Escape key. -/
  escape_pressed : Bool
  /-- Next unused shader or program name. -/
  next_object : Nat
  /-- Next unused vertex array name. -/
  next_array : Nat
  /-- Next unused buffer name. -/
  next_buffer : Nat
  /-- Program made current by the last `glUseProgram`; 0 is none. -/
  current_program : Nat
  /-- Vertex array bound by the last `glBindVertexArray`; 0 is none. -/
  vertex_array_binding : Nat
  /-- Buffer bound to the array-buffer target; 0 is none. -/
  array_buffer_binding : Nat
  /-- Data store of each buffer object. -/
  buffers : Nat → Option (List ℚ)
  /-- Value of each program's uniform, by program and location. -/
  uniforms : Nat → Int → Option Floats
  /-- Viewport rectangle `(x, y, width, height)` of the last `glViewport`;
  zeros stand for the rectangle before the first call, which is not modelled. -/
  viewport : Int × Int × Int × Int
  /-- Text written to standard output, oldest first. -/
  stdout : List String
  /-- Library calls made so far, oldest first. -/
  calls : List Call

/-- State at entry to `main`: no objects, nothing bound, flag clear, key up. -/
def World.initial : World :=
  { shader_program := 0, vertex_shader := 0, fragment_shader := 0, vao := 0, vbo := 0
    should_close := false, escape_pressed := false
    next_object := 1, next_array := 1, next_buffer := 1
    current_program := 0, vertex_array_binding := 0, array_buffer_binding := 0
    buffers := fun _ => none, uniforms := fun _ _ => none
    viewport := (0, 0, 0, 0), stdout := [], calls := [] }

/-- Record one library call. -/
def World.log (s : World) (c : Call) : World :=
  { s with calls := s.calls ++ [c] }

/-- Source `std::cout << text`. -/
def cout (text : String) (s : World) : World :=
  { s with stdout := s.stdout ++ [text] }

/-! ## Library functions, as far as the program's state depends on them -/

/-- Library call `glCreateShader`: a fresh non-zero name. -/
def glCreateShader (kind : ShaderKind) (s : World) : Nat × World :=
  (s.next_object, { (s.log (Call.glCreateShader kind)) with next_object := s.next_object + 1 })

/-- Library call `glCreateProgram`: a fresh non-zero name from the same name
space as shaders. -/
def glCreateProgram (s : World) : Nat × World :=
  (s.next_object, { (s.log Call.glCreateProgram) with next_object := s.next_object + 1 })

/-- Library call `glGenVertexArrays(1, &vao)`: one fresh name. -/
def glGenVertexArrays (s : World) : Nat × World :=
  (s.next_array, { (s.log Call.glGenVertexArrays) with next_array := s.next_array + 1 })

/-- Library call `glGenBuffers(1, &vbo)`: one fresh name. -/
def glGenBuffers (s : World) : Nat × World :=
  (s.next_buffer, { (s.log Call.glGenBuffers) with next_buffer := s.next_buffer + 1 })

/-- Library call `glBindVertexArray`. -/
def glBindVertexArray (array : Nat) (s : World) : World :=
  { (s.log (Call.glBindVertexArray array)) with vertex_array_binding := array }

/-- Library call `glBindBuffer(GL_ARRAY_BUFFER, buffer)`. -/
def glBindBuffer (buffer : Nat) (s : World) : World :=
  { (s.log (Call.glBindBuffer buffer)) with array_buffer_binding := buffer }

/-- Library call `glBufferData(GL_ARRAY_BUFFER, ..)`: replaces the data store
of the buffer bound to the target; without a bound buffer nothing is stored. -/
def glBufferData (data : List ℚ) (s : World) : World :=
  { (s.log (Call.glBufferData data)) with
    buffers := fun b =>
      if b = s.array_buffer_binding ∧ s.array_buffer_binding ≠ 0 then some data
      else s.buffers b }

/-- Library call `glDeleteBuffers(1, &buffer)`: the data store is gone. -/
def glDeleteBuffers (buffer : Nat) (s : World) : World :=
  { (s.log (Call.glDeleteBuffers buffer)) with
    buffers := fun b => if b = buffer then none else s.buffers b }

/-- Library call `glUseProgram`. -/
def glUseProgram (program : Nat) (s : World) : World :=
  { (s.log (Call.glUseProgram program)) with current_program := program }

/-- Location of a named uniform: the vertex shader (lines 13-20) declares the
single uniform `projection`, at location 0; any other name has location -1. -/
def uniform_location (name : String) : Int :=
  if name = "projection" then 0 else -1

/-- Library call `glGetUniformLocation`. -/
def glGetUniformLocation (program : Nat) (name : String) (s : World) : Int × World :=
  (uniform_location name, s.log (Call.glGetUniformLocation program name))

/-- Library call `glUniformMatrix4fv(location, 1, false, value)`: stores into
the uniform of the program that is current; location -1 or no current program
stores nothing. -/
def glUniformMatrix4fv (location : Int) (value : Floats) (s : World) : World :=
  { (s.log (Call.glUniformMatrix4fv location value)) with
    uniforms := fun p l =>
      if p = s.current_program ∧ l = location ∧ location ≠ -1 ∧ s.current_program ≠ 0
      then some value else s.uniforms p l }

/-- Library call `glViewport`. -/
def glViewport (x y width height : Int) (s : World) : World :=
  { (s.log (Call.glViewport x y width height)) with viewport := (x, y, width, height) }

/-- Library call `glfwWindowShouldClose`: reads the close flag. -/
def glfwWindowShouldClose (s : World) : Bool × World :=
  (s.should_close, s.log Call.glfwWindowShouldClose)

/-- Library call `glfwGetKey(window, GLFW_KEY_ESCAPE)`: `true` for
`GLFW_PRESS`. -/
def glfwGetKey (s : World) : Bool × World :=
  (s.escape_pressed, s.log Call.glfwGetKey)

/-- Library call `glfwSetWindowShouldClose`. -/
def glfwSetWindowShouldClose (value : Bool) (s : World) : World :=
  { (s.log (Call.glfwSetWindowShouldClose value)) with should_close := value }

/-! ## The program -/

/-- Source lines 13-20: the text of the vertex shader, up to the first NUL. -/
def vertex_shader_source : String :=
  "#version 330 core\nlayout (location = 0) in vec3 pos;\nuniform mat4 projection;\nvoid main()\n\x7b\n   gl_Position = projection * vec4(pos, 1.0);\n\x7d"

/-- Source lines 22-28: the text of the fragment shader, up to the first NUL. -/
def fragment_shader_source : String :=
  "#version 330 core\nout vec4 color;\nvoid main()\n\x7b\n   color = vec4(0.0, 0.0, 0.0, 1.0);\n\x7d\n"

/-- Source line 58, `char info_log[512]`: an info-log query with buffer size
512 writes at most 511 characters of the log. -/
def info_log (text : String) : String :=
  text.take 511

/-- Size of a `float` in bytes, `sizeof(float)` of line 104. -/
def sizeof_float : Nat := 4

/-- Source lines 91-94: the array `vertices`. -/
def vertices : List ℚ :=
  [0, 0, 0,
   100, 100, 0]

/-- Source lines 155-158. -/
def process_input (s : World) : World :=
  if (glfwGetKey s).1 = true then
    glfwSetWindowShouldClose true (glfwGetKey s).2
  else (glfwGetKey s).2

/-- Source lines 143-153. -/
def framebuffer_size_callback (width height : Int) (s : World) : World :=
  let r := glGetUniformLocation s.shader_program "projection" s
  let s := glUniformMatrix4fv r.1 (framebuffer_size_callback.ortho_floats width height) r.2
  glViewport 0 0 width height s

/-- Effect of one delivered event.  The program installs a callback for
framebuffer size only (line 45); key and close events change the state the
library keeps for the window. -/
def deliver (s : World) : Event → World
  | Event.framebufferSize w h => framebuffer_size_callback w h s
  | Event.escapeKey pressed => { s with escape_pressed := pressed }
  | Event.closeRequested => { s with should_close := true }

/-- Library call `glfwPollEvents`: the pending events are delivered in order,
on the calling thread. -/
def glfwPollEvents (events : List Event) (s : World) : World :=
  events.foldl deliver (s.log Call.glfwPollEvents)

/-- Source lines 122-125: the part of the loop body before the draw call. -/
def clear_frame (s : World) : World :=
  let s := process_input s
  let s := s.log (Call.glClearColor 1 1 0 1)
  s.log Call.glClear

/-- Source lines 122-131: the loop body up to and including the poll; with a
shorter event list, the state in which the poll delivers its next event. -/
def poll_state (events : List Event) (s : World) : World :=
  let s := clear_frame s
  let s := s.log (Call.glDrawArrays 0 2)
  glfwPollEvents events s

/-- Source lines 122-132: the body of the render loop, with the events the
poll of this iteration delivers. -/
def loop_body (events : List Event) (s : World) : World :=
  (poll_state events s).log Call.glfwSwapBuffers

/-- Source lines 121-133: `while (!glfwWindowShouldClose(window)) body`, run on
the event lists of successive iterations.  The result is the state reached and
whether the loop has ended; `false` means the condition was last seen false
and the given iterations are used up. -/
def render_loop : List (List Event) → World → World × Bool
  | [], s => ((glfwWindowShouldClose s).2, (glfwWindowShouldClose s).1)
  | events :: rest, s =>
    if (glfwWindowShouldClose s).1 = true then ((glfwWindowShouldClose s).2, true)
    else render_loop rest (loop_body events (glfwWindowShouldClose s).2)

/-- Source lines 33-38: library initialisation, hints and window creation. -/
def create_window (s : World) : World :=
  let s := s.log Call.glfwInit
  let s := s.log (Call.glfwWindowHint (WindowHint.contextVersionMajor 3))
  let s := s.log (Call.glfwWindowHint (WindowHint.contextVersionMinor 3))
  let s := s.log (Call.glfwWindowHint WindowHint.openglCoreProfile)
  s.log (Call.glfwCreateWindow width height "Line Drawing")

/-- Source lines 52-89: compile both shaders, link, report, delete. -/
def shader_setup (env : Env) (s : World) : World :=
  -- lines 53-55
  let r := glCreateShader ShaderKind.vertex s
  let s := { r.2 with vertex_shader := r.1 }
  let s := s.log (Call.glShaderSource s.vertex_shader vertex_shader_source)
  let s := s.log (Call.glCompileShader s.vertex_shader)
  -- lines 59-63
  let s := s.log (Call.glGetShaderiv s.vertex_shader)
  let s :=
    if env.vertex_compiled = false then
      cout "\n" (cout (info_log env.vertex_log)
        (cout "ERROR::SHADER::VERTEX::COMPILATION_FAILED\n"
          (s.log (Call.glGetShaderInfoLog s.vertex_shader))))
    else s
  -- lines 66-68
  let r := glCreateShader ShaderKind.fragment s
  let s := { r.2 with fragment_shader := r.1 }
  let s := s.log (Call.glShaderSource s.fragment_shader fragment_shader_source)
  let s := s.log (Call.glCompileShader s.fragment_shader)
  -- lines 70-74
  let s := s.log (Call.glGetShaderiv s.fragment_shader)
  let s :=
    if env.fragment_compiled = false then
      cout "\n" (cout (info_log env.fragment_log)
        (cout "ERROR::SHADER::FRAGMENT::COMPILATION_FAILED\n"
          (s.log (Call.glGetShaderInfoLog s.fragment_shader))))
    else s
  -- lines 77-80
  let r := glCreateProgram s
  let s := { r.2 with shader_program := r.1 }
  let s := s.log (Call.glAttachShader s.shader_program s.vertex_shader)
  let s := s.log (Call.glAttachShader s.shader_program s.fragment_shader)
  let s := s.log (Call.glLinkProgram s.shader_program)
  -- lines 83-87
  let s := s.log (Call.glGetProgramiv s.shader_program)
  let s :=
    if env.linked = false then
      cout "\n" (cout (info_log env.link_log)
        (cout "ERROR::SHADER::PROGRAM::LINKING_FAILED\n"
          (s.log (Call.glGetProgramInfoLog s.shader_program))))
    else s
  -- lines 88-89
  let s := s.log (Call.glDeleteShader s.vertex_shader)
  s.log (Call.glDeleteShader s.fragment_shader)

/-- Source lines 91-108: create the vertex array and buffer, upload
`vertices`, describe attribute 0, unbind. -/
def geometry_upload (s : World) : World :=
  let r := glGenVertexArrays s
  let s := { r.2 with vao := r.1 }
  let r := glGenBuffers s
  let s := { r.2 with vbo := r.1 }
  let s := glBindVertexArray s.vao s
  let s := glBindBuffer s.vbo s
  let s := glBufferData vertices s
  let s := s.log (Call.glVertexAttribPointer 0 3 (3 * sizeof_float) 0)
  let s := s.log (Call.glEnableVertexAttribArray 0)
  let s := glBindBuffer 0 s
  glBindVertexArray 0 s

/-- Source lines 110-119: make the program current, upload the initial
projection, bind the vertex array. -/
def projection_upload (s : World) : World :=
  let s := glUseProgram s.shader_program s
  let r := glGetUniformLocation s.shader_program "projection" s
  let s := glUniformMatrix4fv r.1 (Floats.finite main.ortho) r.2
  glBindVertexArray s.vao s

/-- Source lines 52-119: everything between the bootstrap and the loop. -/
def setup (env : Env) (s : World) : World :=
  projection_upload (geometry_upload (shader_setup env s))

/-- Source lines 44-45 and the call of line 47. -/
def make_current_and_load (s : World) : World :=
  let s := s.log Call.glfwMakeContextCurrent
  let s := s.log Call.glfwSetFramebufferSizeCallback
  s.log Call.gladLoadGLLoader

/-- Source lines 135-139: release the objects and the library. -/
def cleanup (s : World) : World :=
  let s := s.log (Call.glDeleteVertexArrays s.vao)
  let s := glDeleteBuffers s.vbo s
  let s := s.log (Call.glDeleteProgram s.shader_program)
  s.log Call.glfwTerminate

/-- State in which the loop condition of line 121 is first evaluated, for a
run whose bootstrap succeeded. -/
def loop_entry (env : Env) : World :=
  setup env (make_current_and_load (create_window World.initial))

/-- State in which the render loop runs or has just ended (before line 135),
for a run whose bootstrap succeeded. -/
def run_loop (env : Env) (frames : List (List Event)) : World × Bool :=
  render_loop frames (loop_entry env)

/-- Source lines 32-141.  The first component is the value `main` returns, or
`none` when the loop is still running after the given iterations. -/
def main (env : Env) (frames : List (List Event)) : Option Int × World :=
  let s := create_window World.initial
  if env.window_created = false then
    -- lines 39-43
    let s := cout "Failed to create GLFW window" s
    let s := cout "\n" s
    let s := s.log Call.glfwTerminate
    (some (-1), s)
  else
    let s := make_current_and_load s
    if env.loader_ok = false then
      -- lines 47-50
      let s := cout "Failed to initialize GLAD" s
      let s := cout "\n" s
      (some (-1), s)
    else
      let r := render_loop frames (setup env s)
      if r.2 = true then (some 0, cleanup r.1) else (none, r.1)

/-! ## Reading the call history -/

/-- Calls made inside the render loop, the resize callback included. -/
def is_loop_call : Call → Bool
  | Call.glfwWindowShouldClose => true
  | Call.glfwGetKey => true
  | Call.glfwSetWindowShouldClose _ => true
  | Call.glClearColor _ _ _ _ => true
  | Call.glClear => true
  | Call.glDrawArrays _ _ => true
  | Call.glfwPollEvents => true
  | Call.glfwSwapBuffers => true
  | Call.glGetUniformLocation _ _ => true
  | Call.glUniformMatrix4fv _ _ => true
  | Call.glViewport _ _ _ _ => true
  | _ => false

/-- Calls that need the shader program to be current: a uniform upload or a
draw. -/
def is_upload_or_draw : Call → Bool
  | Call.glUniformMatrix4fv _ _ => true
  | Call.glDrawArrays _ _ => true
  | _ => false

/-- Calls that change which program is current. -/
def is_use_program : Call → Bool
  | Call.glUseProgram _ => true
  | _ => false

/-- Calls that fetch an info log (lines 61, 72, 85). -/
def is_info_log_call : Call → Bool
  | Call.glGetShaderInfoLog _ => true
  | Call.glGetProgramInfoLog _ => true
  | _ => false

/-- Calls that compile, link, upload geometry, or belong to the loop: none of
them may appear when the bootstrap fails. -/
def is_bootstrap_call : Call → Bool
  | Call.glfwInit => true
  | Call.glfwWindowHint _ => true
  | Call.glfwCreateWindow _ _ _ => true
  | Call.glfwTerminate => true
  | Call.glfwMakeContextCurrent => true
  | Call.glfwSetFramebufferSizeCallback => true
  | Call.gladLoadGLLoader => true
  | _ => false

/-- Current program after one more call. -/
def bind_step (bound : Nat) : Call → Nat
  | Call.glUseProgram program => program
  | _ => bound

/-- Current program after a sequence of calls, starting with none. -/
def program_bound (calls : List Call) : Nat :=
  calls.foldl bind_step 0

/-- Check that in `calls`, started with `bound` current, every upload or draw
happens while `program` is current. -/
def binding_ok (program : Nat) : Nat → List Call → Bool
  | _, [] => true
  | bound, c :: rest =>
    (!(is_upload_or_draw c) || bound == program) && binding_ok program (bind_step bound c) rest

/-- Text the source writes for the statuses in `env` (lines 62, 73, 86). -/
def diagnostics (env : Env) : List String :=
  (if env.vertex_compiled = false then
      ["ERROR::SHADER::VERTEX::COMPILATION_FAILED\n", info_log env.vertex_log, "\n"]
    else []) ++
  (if env.fragment_compiled = false then
      ["ERROR::SHADER::FRAGMENT::COMPILATION_FAILED\n", info_log env.fragment_log, "\n"]
    else []) ++
  (if env.linked = false then
      ["ERROR::SHADER::PROGRAM::LINKING_FAILED\n", info_log env.link_log, "\n"]
    else [])

/-- The environment `env` with all three statuses true. -/
def Env.all_ok (env : Env) : Env :=
  { env with vertex_compiled := true, fragment_compiled := true, linked := true }

/-- The state `s` with `calls` and `out` put in front of its history. -/
def World.prepend (calls : List Call) (out : List String) (s : World) : World :=
  { s with calls := calls ++ s.calls, stdout := out ++ s.stdout }

/-- The state `s` with empty history. -/
def World.strip (s : World) : World :=
  { s with calls := [], stdout := [] }

/-- What a stretch of the render loop leaves alone, from `s` to `t`: program
variables, the binding, buffers and output are the same, the close flag is not
cleared, and the calls added are loop calls. -/
structure LoopStep (s t : World) : Prop where
  shader_program : t.shader_program = s.shader_program
  vao : t.vao = s.vao
  vbo : t.vbo = s.vbo
  current_program : t.current_program = s.current_program
  buffers : t.buffers = s.buffers
  stdout : t.stdout = s.stdout
  should_close : s.should_close = true → t.should_close = true
  calls : ∃ added, t.calls = s.calls ++ added ∧ ∀ c ∈ added, is_loop_call c = true

/-- Calls of lines 33-38 and 44-47: the bootstrap of a run in which the window
is created. -/
def bootstrap_calls : List Call :=
  [Call.glfwInit,
   Call.glfwWindowHint (WindowHint.contextVersionMajor 3),
   Call.glfwWindowHint (WindowHint.contextVersionMinor 3),
   Call.glfwWindowHint WindowHint.openglCoreProfile,
   Call.glfwCreateWindow 800 600 "Line Drawing",
   Call.glfwMakeContextCurrent,
   Call.glfwSetFramebufferSizeCallback,
   Call.gladLoadGLLoader]

/-- Calls of lines 53-89 when `n` is the first unused object name. -/
def shader_calls (env : Env) (n : Nat) : List Call :=
  [Call.glCreateShader ShaderKind.vertex, Call.glShaderSource n vertex_shader_source,
   Call.glCompileShader n, Call.glGetShaderiv n] ++
  (if env.vertex_compiled = false then [Call.glGetShaderInfoLog n] else []) ++
  [Call.glCreateShader ShaderKind.fragment,
   Call.glShaderSource (n + 1) fragment_shader_source,
   Call.glCompileShader (n + 1), Call.glGetShaderiv (n + 1)] ++
  (if env.fragment_compiled = false then [Call.glGetShaderInfoLog (n + 1)] else []) ++
  [Call.glCreateProgram, Call.glAttachShader (n + 2) n, Call.glAttachShader (n + 2) (n + 1),
   Call.glLinkProgram (n + 2), Call.glGetProgramiv (n + 2)] ++
  (if env.linked = false then [Call.glGetProgramInfoLog (n + 2)] else []) ++
  [Call.glDeleteShader n, Call.glDeleteShader (n + 1)]

/-- Calls of lines 97-108 for vertex array `a` and buffer `b`; the stride
`3 * sizeof(float)` is 12 bytes. -/
def geometry_calls (a b : Nat) : List Call :=
  [Call.glGenVertexArrays, Call.glGenBuffers, Call.glBindVertexArray a, Call.glBindBuffer b,
   Call.glBufferData vertices, Call.glVertexAttribPointer 0 3 12 0,
   Call.glEnableVertexAttribArray 0, Call.glBindBuffer 0, Call.glBindVertexArray 0]

/-- Calls of lines 117-119 for program `p` and vertex array `a`. -/
def projection_calls (p a : Nat) : List Call :=
  [Call.glUseProgram p, Call.glGetUniformLocation p "projection",
   Call.glUniformMatrix4fv 0 (Floats.finite main.ortho), Call.glBindVertexArray a]

/-- Calls of lines 135-139 for vertex array `a`, buffer `b` and program `p`. -/
def cleanup_calls (a b p : Nat) : List Call :=
  [Call.glDeleteVertexArrays a, Call.glDeleteBuffers b, Call.glDeleteProgram p,
   Call.glfwTerminate]

/-- Calls from the start of `main` to the first evaluation of the loop
condition. -/
def setup_calls (env : Env) : List Call :=
  bootstrap_calls ++ shader_calls env 1 ++ geometry_calls 1 1 ++ projection_calls 3 1

/-! ## Projection matrix -/

/-- C1: for window dimensions `w > 0`, `h > 0` the matrix that
`framebuffer_size_callback` builds and uploads has 16 entries, entry `[0][0]`
is exactly `2/w`, entry `[1][1]` is exactly `2/h`, entries `[2][2]` and `[3][3]`
are 1, and the twelve entries off the diagonal are 0. -/
theorem framebuffer_size_callback_ortho_entries (w h : Int) (hw : 0 < w) (hh : 0 < h) :
    (∀ s : World, (framebuffer_size_callback w h s).calls =
        s.calls ++ [Call.glGetUniformLocation s.shader_program "projection",
                    Call.glUniformMatrix4fv 0
                      (Floats.finite (framebuffer_size_callback.ortho w h)),
                    Call.glViewport 0 0 w h]) ∧
    (framebuffer_size_callback.ortho w h).length = 16 ∧
    entry (framebuffer_size_callback.ortho w h) 0 0 = 2 / (w : ℚ) ∧
    entry (framebuffer_size_callback.ortho w h) 0 0 * (w : ℚ) = 2 ∧
    entry (framebuffer_size_callback.ortho w h) 1 1 = 2 / (h : ℚ) ∧
    entry (framebuffer_size_callback.ortho w h) 1 1 * (h : ℚ) = 2 ∧
    entry (framebuffer_size_callback.ortho w h) 2 2 = 1 ∧
    entry (framebuffer_size_callback.ortho w h) 3 3 = 1 ∧
    (∀ i j : Fin 4, i ≠ j → entry (framebuffer_size_callback.ortho w h) i j = 0) := by
  have hw0 : (w : ℚ) ≠ 0 := by exact_mod_cast hw.ne.symm
  have hh0 : (h : ℚ) ≠ 0 := by exact_mod_cast hh.ne.symm
  refine ⟨?_, ?_, ?_, ?_, ?_, ?_, ?_, ?_, ?_⟩
  · intro s
    simp [framebuffer_size_callback, glViewport, glUniformMatrix4fv, glGetUniformLocation,
      World.log, uniform_location, framebuffer_size_callback.ortho_floats, hw.ne', hh.ne']
  · rfl
  · rfl
  · show 2 / (w : ℚ) * (w : ℚ) = 2
    exact div_mul_cancel₀ _ hw0
  · rfl
  · show 2 / (h : ℚ) * (h : ℚ) = 2
    exact div_mul_cancel₀ _ hh0
  · rfl
  · rfl
  · intro i j hij
    fin_cases i <;> fin_cases j <;>
      first
        | exact absurd rfl hij
        | rfl

/-- Witness for C1 at the window size 400 by 300. -/
theorem framebuffer_size_callback_ortho_entries_witness :
    entry (framebuffer_size_callback.ortho 400 300) 0 0 * ((400 : Int) : ℚ) = 2 ∧
    entry (framebuffer_size_callback.ortho 400 300) 1 1 * ((300 : Int) : ℚ) = 2 :=
  ⟨(framebuffer_size_callback_ortho_entries 400 300 (by decide) (by decide)).2.2.2.1,
   (framebuffer_size_callback_ortho_entries 400 300 (by decide) (by decide)).2.2.2.2.2.1⟩

/-- C7, the claim fails at the far corner of the initial window: for
`(w, h) = (800, 600)` the pixel `(800, 600)` is sent to `(2, 2)`, outside
`[-1, 1]`. -/
theorem vertex_shader_main_far_corner :
    (0 : Int) < 800 ∧ (0 : Int) < 600 ∧
    (0 : ℚ) ≤ 800 ∧ (800 : ℚ) ≤ ((800 : Int) : ℚ) ∧
    (0 : ℚ) ≤ 600 ∧ (600 : ℚ) ≤ ((600 : Int) : ℚ) ∧
    (vertex_shader_main (framebuffer_size_callback.ortho 800 600) (800, 600, 0)).x = 2 ∧
    (vertex_shader_main (framebuffer_size_callback.ortho 800 600) (800, 600, 0)).y = 2 ∧
    ¬ (-1 ≤ (vertex_shader_main (framebuffer_size_callback.ortho 800 600) (800, 600, 0)).x ∧
       (vertex_shader_main (framebuffer_size_callback.ortho 800 600) (800, 600, 0)).x ≤ 1 ∧
       -1 ≤ (vertex_shader_main (framebuffer_size_callback.ortho 800 600) (800, 600, 0)).y ∧
       (vertex_shader_main (framebuffer_size_callback.ortho 800 600) (800, 600, 0)).y ≤ 1) := by
  have hx : (vertex_shader_main (framebuffer_size_callback.ortho 800 600) (800, 600, 0)).x = 2 := by
    simp [vertex_shader_main, mat4_mul_vec4, framebuffer_size_callback.ortho]
  have hy : (vertex_shader_main (framebuffer_size_callback.ortho 800 600) (800, 600, 0)).y = 2 := by
    simp [vertex_shader_main, mat4_mul_vec4, framebuffer_size_callback.ortho]
  refine ⟨by decide, by decide, by norm_num, by norm_num, by norm_num, by norm_num, hx, hy, ?_⟩
  rw [hx, hy]
  norm_num

/-- C7 as amended: for `w > 0`, `h > 0` the projection sends `(x, y, 0, 1)` to
`(2x/w, 2y/h, 0, 1)`; for `0 ≤ x ≤ w` and `0 ≤ y ≤ h` the two components lie
in `[0, 2]`, and a component lies in `[-1, 1]` exactly when the coordinate lies
within half the window size of 0. -/
theorem vertex_shader_main_range (w h : Int) (hw : 0 < w) (hh : 0 < h) (x y : ℚ) :
    vertex_shader_main (framebuffer_size_callback.ortho w h) (x, y, 0) =
      { x := 2 * x / (w : ℚ), y := 2 * y / (h : ℚ), z := 0, w := 1 } ∧
    (0 ≤ x → x ≤ (w : ℚ) →
      0 ≤ (vertex_shader_main (framebuffer_size_callback.ortho w h) (x, y, 0)).x ∧
      (vertex_shader_main (framebuffer_size_callback.ortho w h) (x, y, 0)).x ≤ 2) ∧
    (0 ≤ y → y ≤ (h : ℚ) →
      0 ≤ (vertex_shader_main (framebuffer_size_callback.ortho w h) (x, y, 0)).y ∧
      (vertex_shader_main (framebuffer_size_callback.ortho w h) (x, y, 0)).y ≤ 2) ∧
    ((-1 ≤ (vertex_shader_main (framebuffer_size_callback.ortho w h) (x, y, 0)).x ∧
       (vertex_shader_main (framebuffer_size_callback.ortho w h) (x, y, 0)).x ≤ 1) ↔
      (-(w : ℚ) ≤ 2 * x ∧ 2 * x ≤ (w : ℚ))) ∧
    ((-1 ≤ (vertex_shader_main (framebuffer_size_callback.ortho w h) (x, y, 0)).y ∧
       (vertex_shader_main (framebuffer_size_callback.ortho w h) (x, y, 0)).y ≤ 1) ↔
      (-(h : ℚ) ≤ 2 * y ∧ 2 * y ≤ (h : ℚ))) := by
  have hw0 : (0 : ℚ) < (w : ℚ) := by exact_mod_cast hw
  have hh0 : (0 : ℚ) < (h : ℚ) := by exact_mod_cast hh
  have hv : vertex_shader_main (framebuffer_size_callback.ortho w h) (x, y, 0) =
      { x := 2 * x / (w : ℚ), y := 2 * y / (h : ℚ), z := 0, w := 1 } := by
    simp [vertex_shader_main, mat4_mul_vec4, framebuffer_size_callback.ortho]
    constructor <;> ring
  rw [hv]
  refine ⟨rfl, ?_, ?_, ?_, ?_⟩
  · intro h0 h1
    show 0 ≤ 2 * x / (w : ℚ) ∧ 2 * x / (w : ℚ) ≤ 2
    rw [le_div_iff₀ hw0, div_le_iff₀ hw0]
    constructor <;> linarith
  · intro h0 h1
    show 0 ≤ 2 * y / (h : ℚ) ∧ 2 * y / (h : ℚ) ≤ 2
    rw [le_div_iff₀ hh0, div_le_iff₀ hh0]
    constructor <;> linarith
  · show (-1 ≤ 2 * x / (w : ℚ) ∧ 2 * x / (w : ℚ) ≤ 1) ↔ _
    rw [le_div_iff₀ hw0, div_le_iff₀ hw0]
    constructor <;> intro hc <;> constructor <;> linarith [hc.1, hc.2]
  · show (-1 ≤ 2 * y / (h : ℚ) ∧ 2 * y / (h : ℚ) ≤ 1) ↔ _
    rw [le_div_iff₀ hh0, div_le_iff₀ hh0]
    constructor <;> intro hc <;> constructor <;> linarith [hc.1, hc.2]

/-- Witness for the amended C7: the second vertex `(100, 100, 0)` in the
initial window lands at `(1/4, 1/3)`. -/
theorem vertex_shader_main_range_witness :
    vertex_shader_main (framebuffer_size_callback.ortho 800 600) (100, 100, 0) =
      { x := 2 * 100 / ((800 : Int) : ℚ), y := 2 * 100 / ((600 : Int) : ℚ), z := 0, w := 1 } :=
  (vertex_shader_main_range 800 600 (by decide) (by decide) 100 100).1

/-! ## What the render loop leaves alone -/

theorem LoopStep.refl (s : World) : LoopStep s s :=
  ⟨rfl, rfl, rfl, rfl, rfl, rfl, id, [], by simp, by simp⟩

theorem LoopStep.trans {s t u : World} (h₁ : LoopStep s t) (h₂ : LoopStep t u) :
    LoopStep s u := by
  obtain ⟨a, ha, hal⟩ := h₁.calls
  obtain ⟨b, hb, hbl⟩ := h₂.calls
  refine ⟨h₂.shader_program.trans h₁.shader_program, h₂.vao.trans h₁.vao,
    h₂.vbo.trans h₁.vbo, h₂.current_program.trans h₁.current_program,
    h₂.buffers.trans h₁.buffers, h₂.stdout.trans h₁.stdout,
    fun h => h₂.should_close (h₁.should_close h), a ++ b, ?_, ?_⟩
  · rw [hb, ha, List.append_assoc]
  · intro c hc
    rcases List.mem_append.mp hc with h | h
    · exact hal c h
    · exact hbl c h

theorem LoopStep.log (s : World) (c : Call) (hc : is_loop_call c = true) :
    LoopStep s (s.log c) :=
  ⟨rfl, rfl, rfl, rfl, rfl, rfl, id, [c], rfl, by simpa using hc⟩

theorem LoopStep.process_input (s : World) : LoopStep s (process_input s) := by
  unfold LineDrawing.process_input
  split
  · exact ⟨rfl, rfl, rfl, rfl, rfl, rfl, fun _ => rfl,
      [Call.glfwGetKey, Call.glfwSetWindowShouldClose true],
      by simp [glfwSetWindowShouldClose, glfwGetKey, World.log],
      by simp [is_loop_call]⟩
  · exact LoopStep.log s Call.glfwGetKey rfl

theorem LoopStep.clear_frame (s : World) : LoopStep s (clear_frame s) :=
  ((LoopStep.process_input s).trans (LoopStep.log _ (Call.glClearColor 1 1 0 1) rfl)).trans
    (LoopStep.log _ Call.glClear rfl)

theorem LoopStep.framebuffer_size_callback (w h : Int) (s : World) :
    LoopStep s (framebuffer_size_callback w h s) := by
  constructor
  case calls =>
    refine ⟨[Call.glGetUniformLocation s.shader_program "projection",
     Call.glUniformMatrix4fv 0 (framebuffer_size_callback.ortho_floats w h),
     Call.glViewport 0 0 w h], ?_, ?_⟩
    · simp [LineDrawing.framebuffer_size_callback, glViewport, glUniformMatrix4fv,
        glGetUniformLocation, World.log, uniform_location]
    · simp [is_loop_call]
  all_goals
    simp [LineDrawing.framebuffer_size_callback, glViewport, glUniformMatrix4fv,
      glGetUniformLocation, World.log]

theorem LoopStep.deliver (s : World) (e : Event) : LoopStep s (deliver s e) := by
  cases e with
  | framebufferSize w h => exact LoopStep.framebuffer_size_callback w h s
  | escapeKey pressed => exact ⟨rfl, rfl, rfl, rfl, rfl, rfl, id, [], by simp [LineDrawing.deliver], by simp⟩
  | closeRequested =>
    exact ⟨rfl, rfl, rfl, rfl, rfl, rfl, fun _ => rfl, [], by simp [LineDrawing.deliver], by simp⟩

theorem LoopStep.foldl_deliver (events : List Event) (s : World) :
    LoopStep s (events.foldl LineDrawing.deliver s) := by
  induction events generalizing s with
  | nil => exact LoopStep.refl s
  | cons e rest ih => exact (LoopStep.deliver s e).trans (ih _)

theorem LoopStep.glfwPollEvents (events : List Event) (s : World) :
    LoopStep s (glfwPollEvents events s) :=
  (LoopStep.log s Call.glfwPollEvents rfl).trans (LoopStep.foldl_deliver events _)

theorem LoopStep.poll_state (events : List Event) (s : World) :
    LoopStep s (poll_state events s) :=
  ((LoopStep.clear_frame s).trans (LoopStep.log _ (Call.glDrawArrays 0 2) rfl)).trans
    (LoopStep.glfwPollEvents events _)

theorem LoopStep.loop_body (events : List Event) (s : World) :
    LoopStep s (loop_body events s) :=
  (LoopStep.poll_state events s).trans (LoopStep.log _ Call.glfwSwapBuffers rfl)

theorem LoopStep.glfwWindowShouldClose (s : World) :
    LoopStep s (glfwWindowShouldClose s).2 :=
  LoopStep.log s Call.glfwWindowShouldClose rfl

theorem LoopStep.render_loop (frames : List (List Event)) (s : World) :
    LoopStep s (render_loop frames s).1 := by
  induction frames generalizing s with
  | nil => exact LoopStep.glfwWindowShouldClose s
  | cons events rest ih =>
    unfold LineDrawing.render_loop
    split
    · exact LoopStep.glfwWindowShouldClose s
    · exact ((LoopStep.glfwWindowShouldClose s).trans (LoopStep.loop_body events _)).trans (ih _)

/-- When the loop has ended the close flag is set. -/
theorem render_loop_exit (frames : List (List Event)) (s : World)
    (h : (render_loop frames s).2 = true) : (render_loop frames s).1.should_close = true := by
  induction frames generalizing s with
  | nil => simpa [render_loop, glfwWindowShouldClose, World.log] using h
  | cons events rest ih =>
    unfold render_loop at h ⊢
    split
    · rename_i hc
      simpa [glfwWindowShouldClose, World.log] using hc
    · rename_i hc
      rw [if_neg hc] at h
      exact ih _ h

/-! ## The phases of `main` as state updates -/

theorem shader_setup_eq (env : Env) (s : World) :
    shader_setup env s =
      { s with
        vertex_shader := s.next_object, fragment_shader := s.next_object + 1,
        shader_program := s.next_object + 2, next_object := s.next_object + 3,
        stdout := s.stdout ++ diagnostics env,
        calls := s.calls ++ shader_calls env s.next_object } := by
  rcases env with ⟨wc, lo, vc, fc, ln, vl, fl, ll⟩
  cases vc <;> cases fc <;> cases ln <;>
    simp [shader_setup, World.log, cout, glCreateShader, glCreateProgram, diagnostics,
      shader_calls]

theorem geometry_upload_eq (s : World) :
    geometry_upload s =
      { s with
        vao := s.next_array, vbo := s.next_buffer,
        next_array := s.next_array + 1, next_buffer := s.next_buffer + 1,
        vertex_array_binding := 0, array_buffer_binding := 0,
        buffers := fun b =>
          if b = s.next_buffer ∧ s.next_buffer ≠ 0 then some vertices else s.buffers b,
        calls := s.calls ++ geometry_calls s.next_array s.next_buffer } := by
  simp [geometry_upload, World.log, glGenVertexArrays, glGenBuffers, glBindVertexArray,
    glBindBuffer, glBufferData, geometry_calls, sizeof_float]

theorem projection_upload_eq (s : World) :
    projection_upload s =
      { s with
        current_program := s.shader_program, vertex_array_binding := s.vao,
        uniforms := fun p l =>
          if p = s.shader_program ∧ l = 0 ∧ s.shader_program ≠ 0
          then some (Floats.finite main.ortho)
          else s.uniforms p l,
        calls := s.calls ++ projection_calls s.shader_program s.vao } := by
  simp [projection_upload, World.log, glUseProgram, glGetUniformLocation, glUniformMatrix4fv,
    glBindVertexArray, projection_calls, uniform_location]

theorem bootstrap_eq :
    make_current_and_load (create_window World.initial) =
      { World.initial with calls := bootstrap_calls } := by
  simp [make_current_and_load, create_window, World.log, World.initial, bootstrap_calls,
    width, height]

/-- The state in which the loop condition is first evaluated. -/
theorem loop_entry_eq (env : Env) :
    loop_entry env =
      { shader_program := 3, vertex_shader := 1, fragment_shader := 2, vao := 1, vbo := 1
        should_close := false, escape_pressed := false
        next_object := 4, next_array := 2, next_buffer := 2
        current_program := 3, vertex_array_binding := 1, array_buffer_binding := 0
        buffers := fun b => if b = 1 then some vertices else none
        uniforms := fun p l => if p = 3 ∧ l = 0 then some (Floats.finite main.ortho) else none
        viewport := (0, 0, 0, 0), stdout := diagnostics env, calls := setup_calls env } := by
  rw [loop_entry, bootstrap_eq]
  simp [setup, shader_setup_eq, geometry_upload_eq, projection_upload_eq, World.initial,
    setup_calls]

/-- Fields of the state at loop entry. -/
theorem loop_entry_fields (env : Env) :
    (loop_entry env).shader_program = 3 ∧ (loop_entry env).vertex_shader = 1 ∧
    (loop_entry env).fragment_shader = 2 ∧
    (loop_entry env).vao = 1 ∧ (loop_entry env).vbo = 1 ∧
    (loop_entry env).current_program = 3 ∧
    (loop_entry env).should_close = false ∧ (loop_entry env).escape_pressed = false ∧
    (loop_entry env).buffers 1 = some vertices ∧
    (loop_entry env).uniforms 3 0 = some (Floats.finite main.ortho) ∧
    (loop_entry env).stdout = diagnostics env ∧
    (loop_entry env).calls = setup_calls env := by
  simp [loop_entry_eq]

/-- Between the statuses only the history differs at loop entry. -/
theorem loop_entry_strip (env : Env) :
    (loop_entry env).strip = (loop_entry env.all_ok).strip := by
  simp [loop_entry_eq, World.strip]

/-- Without the info-log queries the calls up to loop entry are the same for
all statuses. -/
theorem setup_calls_filter (env : Env) :
    (setup_calls env).filter (fun c => !is_info_log_call c) = setup_calls env.all_ok := by
  rcases env with ⟨wc, lo, vc, fc, ln, vl, fl, ll⟩
  cases vc <;> cases fc <;> cases ln <;> rfl

/-- Up to loop entry every upload happens with the program current, the
program is current at loop entry, and it was made current once. -/
theorem setup_calls_binding (env : Env) :
    binding_ok 3 0 (setup_calls env) = true ∧
    (setup_calls env).foldl bind_step 0 = 3 ∧
    (setup_calls env).filter is_use_program = [Call.glUseProgram 3] := by
  rcases env with ⟨wc, lo, vc, fc, ln, vl, fl, ll⟩
  cases vc <;> cases fc <;> cases ln <;> exact ⟨rfl, rfl, rfl⟩

/-! ## The loop does not read the history -/

theorem World.prepend_strip (s : World) : World.prepend s.calls s.stdout s.strip = s := by
  cases s
  simp [World.prepend, World.strip]

theorem process_input_prepend (a : List Call) (o : List String) (s : World) :
    process_input (World.prepend a o s) = World.prepend a o (process_input s) := by
  unfold process_input
  by_cases h : s.escape_pressed = true <;>
    simp [glfwGetKey, glfwSetWindowShouldClose, World.prepend, World.log, h]

theorem deliver_prepend (a : List Call) (o : List String) (s : World) (e : Event) :
    deliver (World.prepend a o s) e = World.prepend a o (deliver s e) := by
  cases e <;>
    simp [deliver, framebuffer_size_callback, glViewport, glUniformMatrix4fv,
      glGetUniformLocation, World.prepend, World.log]

theorem foldl_deliver_prepend (a : List Call) (o : List String) (events : List Event)
    (s : World) :
    events.foldl deliver (World.prepend a o s) = World.prepend a o (events.foldl deliver s) := by
  induction events generalizing s with
  | nil => rfl
  | cons e rest ih => simp only [List.foldl_cons, deliver_prepend, ih]

theorem log_prepend (a : List Call) (o : List String) (s : World) (c : Call) :
    (World.prepend a o s).log c = World.prepend a o (s.log c) := by
  simp [World.prepend, World.log]

theorem loop_body_prepend (a : List Call) (o : List String) (events : List Event)
    (s : World) :
    loop_body events (World.prepend a o s) = World.prepend a o (loop_body events s) := by
  simp only [loop_body, poll_state, clear_frame, glfwPollEvents, process_input_prepend,
    log_prepend, foldl_deliver_prepend]

theorem render_loop_prepend (a : List Call) (o : List String) (frames : List (List Event))
    (s : World) :
    render_loop frames (World.prepend a o s) =
      (World.prepend a o (render_loop frames s).1, (render_loop frames s).2) := by
  induction frames generalizing s with
  | nil => simp [render_loop, glfwWindowShouldClose, World.prepend, World.log]
  | cons events rest ih =>
    have hc : (glfwWindowShouldClose (World.prepend a o s)).1 = (glfwWindowShouldClose s).1 := rfl
    have hs : (glfwWindowShouldClose (World.prepend a o s)).2 =
        World.prepend a o (glfwWindowShouldClose s).2 := log_prepend a o s _
    unfold render_loop
    rw [hc, hs]
    split
    · rfl
    · rw [loop_body_prepend, ih]

/-- The calls a run of the loop adds depend on the start state only through
its stripped form. -/
theorem render_loop_calls (frames : List (List Event)) (s : World) :
    (render_loop frames s).1.calls = s.calls ++ (render_loop frames s.strip).1.calls ∧
    (render_loop frames s).2 = (render_loop frames s.strip).2 := by
  have h := render_loop_prepend s.calls s.stdout frames s.strip
  rw [World.prepend_strip] at h
  rw [h]
  exact ⟨rfl, rfl⟩

/-- The calls a run of the loop adds are loop calls. -/
theorem render_loop_strip_calls (frames : List (List Event)) (s : World) :
    ∀ c ∈ (render_loop frames s.strip).1.calls, is_loop_call c = true := by
  obtain ⟨added, h, hl⟩ := (LoopStep.render_loop frames s.strip).calls
  rw [h]
  simpa [World.strip] using hl

/-! ## The three ways through `main` -/

theorem main_window_failed (env : Env) (frames : List (List Event))
    (h : env.window_created = false) :
    main env frames =
      (some (-1),
        { World.initial with
          stdout := ["Failed to create GLFW window", "\n"]
          calls := [Call.glfwInit,
            Call.glfwWindowHint (WindowHint.contextVersionMajor 3),
            Call.glfwWindowHint (WindowHint.contextVersionMinor 3),
            Call.glfwWindowHint WindowHint.openglCoreProfile,
            Call.glfwCreateWindow 800 600 "Line Drawing",
            Call.glfwTerminate] }) := by
  simp [main, h, create_window, cout, World.log, World.initial, width, height]

theorem main_loader_failed (env : Env) (frames : List (List Event))
    (hw : env.window_created = true) (h : env.loader_ok = false) :
    main env frames =
      (some (-1),
        { World.initial with
          stdout := ["Failed to initialize GLAD", "\n"]
          calls := bootstrap_calls }) := by
  unfold main
  rw [if_neg (by simp [hw]), if_pos h, bootstrap_eq]
  simp [cout, World.initial]

theorem main_bootstrapped (env : Env) (frames : List (List Event))
    (hw : env.window_created = true) (hl : env.loader_ok = true) :
    main env frames =
      if (run_loop env frames).2 = true then (some 0, cleanup (run_loop env frames).1)
      else (none, (run_loop env frames).1) := by
  unfold main
  rw [if_neg (by simp [hw]), if_neg (by simp [hl])]
  rfl

/-- While `main` has not returned, the bootstrap has succeeded, the loop has
not ended, and the state is the loop's. -/
theorem main_running (env : Env) (frames : List (List Event))
    (h : (main env frames).1 = none) :
    env.window_created = true ∧ env.loader_ok = true ∧ (run_loop env frames).2 = false ∧
    (main env frames).2 = (run_loop env frames).1 := by
  cases hw : env.window_created with
  | false => rw [main_window_failed env frames hw] at h; simp at h
  | true =>
    cases hl : env.loader_ok with
    | false => rw [main_loader_failed env frames hw hl] at h; simp at h
    | true =>
      rw [main_bootstrapped env frames hw hl] at h ⊢
      cases hr : (run_loop env frames).2 with
      | true => simp [hr] at h
      | false => simp [hr]

/-- From loop entry to any later point of the loop. -/
theorem LoopStep.run_loop (env : Env) (frames : List (List Event)) :
    LoopStep (loop_entry env) (run_loop env frames).1 :=
  LoopStep.render_loop frames (loop_entry env)

/-- The callback in a state in which the program is current. -/
theorem framebuffer_size_callback_state (w h : Int) (s : World)
    (hb : s.current_program = s.shader_program) (hp : s.shader_program ≠ 0) :
    (framebuffer_size_callback w h s).viewport = (0, 0, w, h) ∧
    (framebuffer_size_callback w h s).shader_program = s.shader_program ∧
    (framebuffer_size_callback w h s).uniforms s.shader_program (uniform_location "projection") =
      some (framebuffer_size_callback.ortho_floats w h) := by
  simp [framebuffer_size_callback, glViewport, glUniformMatrix4fv, glGetUniformLocation,
    World.log, uniform_location, hb, hp]

/-! ## Resize -/

/-- In a run of `main` that is inside the render loop, a resize event
delivered by the poll makes the callback set the viewport and store the array
it built in the `projection` uniform of the shader program. -/
theorem framebuffer_size_callback_in_loop (env : Env) (frames : List (List Event))
    (events : List Event) (w h : Int) (hrun : (main env frames).1 = none) :
    (framebuffer_size_callback w h (poll_state events (main env frames).2)).viewport =
      (0, 0, w, h) ∧
    (framebuffer_size_callback w h (poll_state events (main env frames).2)).uniforms
        (framebuffer_size_callback w h (poll_state events (main env frames).2)).shader_program
        (uniform_location "projection") =
      some (framebuffer_size_callback.ortho_floats w h) := by
  obtain ⟨-, -, -, hs⟩ := main_running env frames hrun
  have hstep : LoopStep (loop_entry env) (poll_state events (main env frames).2) := by
    rw [hs]
    exact (LoopStep.run_loop env frames).trans (LoopStep.poll_state events _)
  have hf := loop_entry_fields env
  have hsp : (poll_state events (main env frames).2).shader_program = 3 :=
    hstep.shader_program.trans hf.1
  have hcp : (poll_state events (main env frames).2).current_program = 3 :=
    hstep.current_program.trans hf.2.2.2.2.2.1
  have hb : (poll_state events (main env frames).2).current_program =
      (poll_state events (main env frames).2).shader_program := by rw [hsp, hcp]
  have hp : (poll_state events (main env frames).2).shader_program ≠ 0 := by
    rw [hsp]; decide
  obtain ⟨h1, h2, h3⟩ := framebuffer_size_callback_state w h _ hb hp
  exact ⟨h1, by rw [h2]; exact h3⟩

/-- C2, the claim fails for the resize event `(0, 0)` (a minimised window):
in the run with all statuses true, inside the loop before its first iteration,
the callback divides by 0 and the value stored in the `projection` uniform is
not a matrix of finite numbers, so it is no projection matrix with diagonal
`2/w`, `2/h`. -/
theorem framebuffer_size_callback_zero_size :
    (main ⟨true, true, true, true, true, "", "", ""⟩ []).1 = none ∧
    (framebuffer_size_callback 0 0
        (poll_state [] (main ⟨true, true, true, true, true, "", "", ""⟩ []).2)).viewport =
      (0, 0, 0, 0) ∧
    (framebuffer_size_callback 0 0
        (poll_state [] (main ⟨true, true, true, true, true, "", "", ""⟩ []).2)).uniforms
      (framebuffer_size_callback 0 0
        (poll_state [] (main ⟨true, true, true, true, true, "", "", ""⟩ []).2)).shader_program
      (uniform_location "projection") = some Floats.nonfinite ∧
    ¬ ∃ m : List ℚ,
      (framebuffer_size_callback 0 0
        (poll_state [] (main ⟨true, true, true, true, true, "", "", ""⟩ []).2)).uniforms
      (framebuffer_size_callback 0 0
        (poll_state [] (main ⟨true, true, true, true, true, "", "", ""⟩ []).2)).shader_program
      (uniform_location "projection") = some (Floats.finite m) := by
  have hrun : (main ⟨true, true, true, true, true, "", "", ""⟩ []).1 = none := rfl
  obtain ⟨h1, h2⟩ := framebuffer_size_callback_in_loop
    ⟨true, true, true, true, true, "", "", ""⟩ [] [] 0 0 hrun
  have hz : framebuffer_size_callback.ortho_floats 0 0 = Floats.nonfinite := rfl
  rw [hz] at h2
  refine ⟨hrun, h1, h2, ?_⟩
  rintro ⟨m, hm⟩
  rw [h2] at hm
  exact Floats.noConfusion (Option.some.inj hm)

/-- C2 as amended: in a run of `main` that is inside the render loop, when the
poll of the current iteration delivers a resize event `(w, h)` (after any
events delivered before it), the callback leaves the viewport at
`(0, 0, w, h)`, and for `w > 0` and `h > 0` it leaves the `projection` uniform
of the shader program at the projection matrix for `(w, h)`; for `(400, 300)`
the viewport is `(0, 0, 400, 300)` and the diagonal of the stored matrix, over
exact rationals, starts with `1/200`, `1/150`. -/
theorem framebuffer_size_callback_effect (env : Env) (frames : List (List Event))
    (events : List Event) (w h : Int) (hrun : (main env frames).1 = none) :
    (framebuffer_size_callback w h (poll_state events (main env frames).2)).viewport =
      (0, 0, w, h) ∧
    (0 < w → 0 < h →
      (framebuffer_size_callback w h (poll_state events (main env frames).2)).uniforms
        (framebuffer_size_callback w h (poll_state events (main env frames).2)).shader_program
        (uniform_location "projection") =
      some (Floats.finite (framebuffer_size_callback.ortho w h))) ∧
    (framebuffer_size_callback 400 300 (poll_state events (main env frames).2)).viewport =
      (0, 0, 400, 300) ∧
    (∃ m, (framebuffer_size_callback 400 300 (poll_state events (main env frames).2)).uniforms
        (framebuffer_size_callback 400 300 (poll_state events (main env frames).2)).shader_program
        (uniform_location "projection") = some (Floats.finite m) ∧
      entry m 0 0 = 1 / 200 ∧ entry m 1 1 = 1 / 150 ∧ entry m 2 2 = 1 ∧ entry m 3 3 = 1) := by
  obtain ⟨h1, h2⟩ := framebuffer_size_callback_in_loop env frames events w h hrun
  obtain ⟨k1, k2⟩ := framebuffer_size_callback_in_loop env frames events 400 300 hrun
  have hfin : ∀ a b : Int, 0 < a → 0 < b →
      framebuffer_size_callback.ortho_floats a b =
        Floats.finite (framebuffer_size_callback.ortho a b) := by
    intro a b ha hb
    simp [framebuffer_size_callback.ortho_floats, ha.ne', hb.ne']
  refine ⟨h1, ?_, k1, framebuffer_size_callback.ortho 400 300, ?_, ?_, ?_, rfl, rfl⟩
  · intro hw hh
    rw [h2, hfin w h hw hh]
  · rw [k2, hfin 400 300 (by decide) (by decide)]
  · show (2 : ℚ) / ((400 : Int) : ℚ) = 1 / 200
    norm_num
  · show (2 : ℚ) / ((300 : Int) : ℚ) = 1 / 150
    norm_num

/-- Witness for the amended C2: the run with all statuses true is inside the
loop before its first iteration, and a resize to 400 by 300 delivered by the
first poll stores the matrix for `(400, 300)`. -/
theorem framebuffer_size_callback_effect_witness :
    (main ⟨true, true, true, true, true, "", "", ""⟩ []).1 = none ∧
    (framebuffer_size_callback 400 300
      (poll_state [] (main ⟨true, true, true, true, true, "", "", ""⟩ []).2)).uniforms
      (framebuffer_size_callback 400 300
        (poll_state [] (main ⟨true, true, true, true, true, "", "", ""⟩ []).2)).shader_program
      (uniform_location "projection") =
      some (Floats.finite (framebuffer_size_callback.ortho 400 300)) :=
  ⟨rfl, (framebuffer_size_callback_effect ⟨true, true, true, true, true, "", "", ""⟩ [] []
    400 300 rfl).2.1 (by decide) (by decide)⟩

/-! ## Vertex buffer -/

theorem clear_frame_uniforms (s : World) : (clear_frame s).uniforms = s.uniforms := by
  unfold clear_frame process_input
  split <;> rfl

/-- C3: `framebuffer_size_callback`, `process_input`, a loop iteration and the
initial projection upload leave every buffer as it is, and in every state from
the geometry upload to the end of the loop (after the upload, at loop entry,
after any number of iterations with any events, and inside an iteration while
the poll delivers events) the buffer `vbo` holds exactly the six floats
`0, 0, 0, 100, 100, 0`. -/
theorem vertex_buffer_unchanged :
    (∀ (w h : Int) (s : World), (framebuffer_size_callback w h s).buffers = s.buffers) ∧
    (∀ s : World, (process_input s).buffers = s.buffers) ∧
    (∀ (events : List Event) (s : World), (loop_body events s).buffers = s.buffers) ∧
    (∀ s : World, (projection_upload s).buffers = s.buffers) ∧
    (∀ env : Env,
      (geometry_upload (shader_setup env
          (make_current_and_load (create_window World.initial)))).buffers
        (geometry_upload (shader_setup env
          (make_current_and_load (create_window World.initial)))).vbo =
        some [0, 0, 0, 100, 100, 0]) ∧
    (∀ env : Env,
      (loop_entry env).buffers (loop_entry env).vbo = some [0, 0, 0, 100, 100, 0]) ∧
    (∀ (env : Env) (frames : List (List Event)),
      (run_loop env frames).1.buffers (run_loop env frames).1.vbo =
        some [0, 0, 0, 100, 100, 0]) ∧
    (∀ (env : Env) (frames : List (List Event)) (events : List Event),
      (poll_state events (run_loop env frames).1).buffers
        (poll_state events (run_loop env frames).1).vbo = some [0, 0, 0, 100, 100, 0]) := by
  have hentry : ∀ env : Env,
      (loop_entry env).buffers (loop_entry env).vbo = some [0, 0, 0, 100, 100, 0] := by
    intro env
    have hf := loop_entry_fields env
    rw [hf.2.2.2.2.1, hf.2.2.2.2.2.2.2.2.1]
    rfl
  refine ⟨fun w h s => (LoopStep.framebuffer_size_callback w h s).buffers,
    fun s => (LoopStep.process_input s).buffers,
    fun events s => (LoopStep.loop_body events s).buffers, ?_, ?_, hentry, ?_, ?_⟩
  · intro s
    rw [projection_upload_eq]
  · intro env
    rw [bootstrap_eq, shader_setup_eq, geometry_upload_eq]
    simp [World.initial, vertices]
  · intro env frames
    have hstep := LoopStep.run_loop env frames
    rw [hstep.buffers, hstep.vbo]
    exact hentry env
  · intro env frames events
    have hstep := (LoopStep.run_loop env frames).trans (LoopStep.poll_state events _)
    rw [hstep.buffers, hstep.vbo]
    exact hentry env

/-! ## Escape -/

/-- Once the close flag is set the loop ends at the next evaluation of its
condition. -/
theorem render_loop_closed (frames : List (List Event)) (s : World)
    (h : s.should_close = true) :
    render_loop frames s = ((glfwWindowShouldClose s).2, true) := by
  cases frames with
  | nil => simp [render_loop, glfwWindowShouldClose, h]
  | cons events rest => simp [render_loop, glfwWindowShouldClose, h]

/-- C4: if the loop is running (the condition is evaluated with the close flag
clear) and the Escape key is pressed when the iteration begins, then
`process_input` sets the close flag, the flag is set at the end of the
iteration whatever the poll delivers, and the loop ends at the next evaluation
of its condition without using any further iteration. -/
theorem escape_ends_loop (s : World) (events : List Event) (rest : List (List Event))
    (hrun : s.should_close = false) (hesc : s.escape_pressed = true) :
    (process_input (glfwWindowShouldClose s).2).should_close = true ∧
    (loop_body events (glfwWindowShouldClose s).2).should_close = true ∧
    render_loop (events :: rest) s =
      ((glfwWindowShouldClose (loop_body events (glfwWindowShouldClose s).2)).2, true) := by
  have h1 : (process_input (glfwWindowShouldClose s).2).should_close = true := by
    simp [process_input, glfwGetKey, glfwSetWindowShouldClose, glfwWindowShouldClose,
      World.log, hesc]
  have hrest : LoopStep (process_input (glfwWindowShouldClose s).2)
      (loop_body events (glfwWindowShouldClose s).2) :=
    (((((LoopStep.log _ (Call.glClearColor 1 1 0 1) rfl).trans
      (LoopStep.log _ Call.glClear rfl)).trans
      (LoopStep.log _ (Call.glDrawArrays 0 2) rfl)).trans
      (LoopStep.glfwPollEvents events _))).trans (LoopStep.log _ Call.glfwSwapBuffers rfl)
  have h2 : (loop_body events (glfwWindowShouldClose s).2).should_close = true :=
    hrest.should_close h1
  refine ⟨h1, h2, ?_⟩
  have hc : ¬ ((glfwWindowShouldClose s).1 = true) := by
    simp [glfwWindowShouldClose, hrun]
  rw [render_loop, if_neg hc]
  exact render_loop_closed rest _ h2

/-- Witness for C4: Escape is down when the first iteration begins; that
iteration runs, the loop ends, and the resize scripted for a second iteration
never reaches the callback. -/
theorem escape_ends_loop_witness :
    (render_loop [[], [Event.framebufferSize 1 1]]
      { World.initial with escape_pressed := true }).2 = true ∧
    (render_loop [[], [Event.framebufferSize 1 1]]
      { World.initial with escape_pressed := true }).1.calls =
      [Call.glfwWindowShouldClose, Call.glfwGetKey, Call.glfwSetWindowShouldClose true,
       Call.glClearColor 1 1 0 1, Call.glClear, Call.glDrawArrays 0 2, Call.glfwPollEvents,
       Call.glfwSwapBuffers, Call.glfwWindowShouldClose] := by
  have h := (escape_ends_loop { World.initial with escape_pressed := true } []
    [[Event.framebufferSize 1 1]] rfl rfl).2.2
  rw [h]
  exact ⟨rfl, rfl⟩

/-! ## Exit code -/

theorem cleanup_eq (s : World) :
    cleanup s =
      { s with
        buffers := fun b => if b = s.vbo then none else s.buffers b
        calls := s.calls ++ cleanup_calls s.vao s.vbo s.shader_program } := by
  simp [cleanup, glDeleteBuffers, World.log, cleanup_calls]

/-- A close request delivered by the poll of one more iteration ends the
loop. -/
theorem render_loop_close_requested (frames : List (List Event)) (s : World) :
    (render_loop (frames ++ [[Event.closeRequested]]) s).2 = true := by
  induction frames generalizing s with
  | nil =>
    show (render_loop [[Event.closeRequested]] s).2 = true
    unfold render_loop
    split
    · rfl
    · rfl
  | cons events rest ih =>
    show (render_loop (events :: (rest ++ [[Event.closeRequested]])) s).2 = true
    unfold render_loop
    split
    · rfl
    · exact ih _

/-- The first evaluation of the loop condition is among the calls the loop
adds. -/
theorem render_loop_condition (frames : List (List Event)) (s : World) :
    Call.glfwWindowShouldClose ∈ (render_loop frames s.strip).1.calls := by
  have hfirst : ∀ t : World, LoopStep (glfwWindowShouldClose s.strip).2 t →
      Call.glfwWindowShouldClose ∈ t.calls := by
    intro t ht
    obtain ⟨added, h, -⟩ := ht.calls
    rw [h]
    simp [glfwWindowShouldClose, World.log, World.strip]
  cases frames with
  | nil => exact hfirst _ (LoopStep.refl _)
  | cons events rest =>
    unfold render_loop
    split
    · exact hfirst _ (LoopStep.refl _)
    · exact hfirst _ ((LoopStep.loop_body events _).trans (LoopStep.render_loop rest _))

/-- The calls of a run whose bootstrap succeeded: set-up, then loop calls,
then the clean-up if the loop has ended. -/
theorem main_calls (env : Env) (frames : List (List Event))
    (hw : env.window_created = true) (hl : env.loader_ok = true) :
    (main env frames).2.calls =
      setup_calls env ++ (render_loop frames (loop_entry env).strip).1.calls ++
        (if (run_loop env frames).2 = true then cleanup_calls 1 1 3 else []) := by
  have hstep := LoopStep.run_loop env frames
  have hf := loop_entry_fields env
  have hcalls : (run_loop env frames).1.calls =
      setup_calls env ++ (render_loop frames (loop_entry env).strip).1.calls := by
    rw [run_loop, (render_loop_calls frames (loop_entry env)).1, hf.2.2.2.2.2.2.2.2.2.2.2]
  rw [main_bootstrapped env frames hw hl]
  cases hr : (run_loop env frames).2 with
  | true =>
    simp only [if_true, cleanup_eq, hcalls, hstep.vao, hstep.vbo, hstep.shader_program, hf.1,
      hf.2.2.2.1, hf.2.2.2.2.1]
  | false => simp [hcalls]

/-- C5: `main` returns -1 exactly when window creation or the loader fails, and
then returns it for every event script, having made bootstrap calls only (no
shader, geometry or loop call); any other return value is 0, returned exactly
when the bootstrap succeeded and the loop has ended, with the close flag set;
and after a successful bootstrap a close request delivered in one more
iteration makes `main` return 0. -/
theorem main_exit_code (env : Env) (frames : List (List Event)) :
    ((main env frames).1 = some (-1) ↔ (env.window_created = false ∨ env.loader_ok = false)) ∧
    ((main env frames).1 = some (-1) →
      (∀ c ∈ (main env frames).2.calls, is_bootstrap_call c = true) ∧
      (main env frames).2.shader_program = 0 ∧ (main env frames).2.buffers = fun _ => none) ∧
    (∀ r : Int, (main env frames).1 = some r → r ≠ -1 → r = 0) ∧
    ((main env frames).1 = some 0 ↔
      (env.window_created = true ∧ env.loader_ok = true ∧ (run_loop env frames).2 = true)) ∧
    ((main env frames).1 = some 0 → (main env frames).2.should_close = true) ∧
    (env.window_created = true → env.loader_ok = true →
      (main env (frames ++ [[Event.closeRequested]])).1 = some 0) := by
  cases hw : env.window_created with
  | false =>
    rw [main_window_failed env frames hw]
    refine ⟨by simp, ?_, by simp, by simp, by simp, by simp⟩
    intro _
    exact ⟨by simp [World.initial, is_bootstrap_call], rfl, rfl⟩
  | true =>
    cases hl : env.loader_ok with
    | false =>
      rw [main_loader_failed env frames hw hl]
      refine ⟨by simp, ?_, by simp, by simp, by simp, by simp⟩
      intro _
      exact ⟨by simp [World.initial, is_bootstrap_call, bootstrap_calls], rfl, rfl⟩
    | true =>
      have hterm : (main env (frames ++ [[Event.closeRequested]])).1 = some 0 := by
        rw [main_bootstrapped env _ hw hl, run_loop, render_loop_close_requested]
        rfl
      rw [main_bootstrapped env frames hw hl]
      cases hr : (run_loop env frames).2 with
      | true =>
        have hflag : (run_loop env frames).1.should_close = true :=
          render_loop_exit frames (loop_entry env) hr
        refine ⟨by simp, by simp, by simp, by simp, ?_, fun _ _ => hterm⟩
        intro _
        simpa [cleanup_eq] using hflag
      | false =>
        exact ⟨by simp, by simp, by simp, by simp, by simp, fun _ _ => hterm⟩

/-- Witness for C5: with the window created and the loader failing `main`
returns -1; with both succeeding and a close request in the first poll it
returns 0. -/
theorem main_exit_code_witness :
    (main ⟨true, false, true, true, true, "", "", ""⟩ []).1 = some (-1) ∧
    (main ⟨true, true, true, true, true, "", "", ""⟩ ([] ++ [[Event.closeRequested]])).1 =
      some 0 :=
  ⟨(main_exit_code ⟨true, false, true, true, true, "", "", ""⟩ []).1.mpr (Or.inr rfl),
   (main_exit_code ⟨true, true, true, true, true, "", "", ""⟩ []).2.2.2.2.2 rfl rfl⟩

/-! ## Shader statuses -/

theorem filter_loop_calls (calls : List Call) (h : ∀ c ∈ calls, is_loop_call c = true) :
    calls.filter (fun c => !is_info_log_call c) = calls := by
  rw [List.filter_eq_self]
  intro c hc
  have := h c hc
  cases c <;> simp_all [is_loop_call, is_info_log_call]

theorem run_loop_all_ok (env : Env) (frames : List (List Event)) :
    (run_loop env frames).2 = (run_loop env.all_ok frames).2 ∧
    (run_loop env frames).1.strip = (run_loop env.all_ok frames).1.strip := by
  have h₁ := render_loop_prepend (loop_entry env).calls (loop_entry env).stdout frames
    (loop_entry env).strip
  have h₂ := render_loop_prepend (loop_entry env.all_ok).calls (loop_entry env.all_ok).stdout
    frames (loop_entry env.all_ok).strip
  rw [World.prepend_strip] at h₁ h₂
  rw [run_loop, run_loop, h₁, h₂, loop_entry_strip env]
  simp [World.prepend, World.strip]

/-- C6: when the bootstrap succeeded, for every combination of the two compile
statuses and the link status `main` returns what it returns with all three
true, makes the same calls apart from the info-log queries, and ends in the
same state apart from the history; its whole output is the diagnostics of the
false statuses; the link call, the geometry upload and the first evaluation of
the loop condition are among its calls; and it does not return -1. -/
theorem shader_status_only_reported (env : Env) (frames : List (List Event))
    (hw : env.window_created = true) (hl : env.loader_ok = true) :
    (main env frames).1 = (main env.all_ok frames).1 ∧
    (main env frames).2.calls.filter (fun c => !is_info_log_call c) =
      (main env.all_ok frames).2.calls ∧
    (main env frames).2.strip = (main env.all_ok frames).2.strip ∧
    (main env frames).2.stdout = diagnostics env ∧
    (main env.all_ok frames).2.stdout = [] ∧
    Call.glLinkProgram 3 ∈ (main env frames).2.calls ∧
    Call.glBufferData vertices ∈ (main env frames).2.calls ∧
    Call.glfwWindowShouldClose ∈ (main env frames).2.calls ∧
    (main env frames).1 ≠ some (-1) := by
  have hw' : env.all_ok.window_created = true := hw
  have hl' : env.all_ok.loader_ok = true := hl
  obtain ⟨hflag, hstrip⟩ := run_loop_all_ok env frames
  have hcalls := main_calls env frames hw hl
  have hcalls' := main_calls env.all_ok frames hw' hl'
  have hout : ∀ e : Env, e.window_created = true → e.loader_ok = true →
      (main e frames).2.stdout = diagnostics e := by
    intro e hew hel
    have hstep := LoopStep.run_loop e frames
    have hf := loop_entry_fields e
    rw [main_bootstrapped e frames hew hel]
    by_cases hb : (run_loop e frames).2 = true
    · simp only [if_pos hb, cleanup_eq, hstep.stdout, hf.2.2.2.2.2.2.2.2.2.2.1]
    · simp only [if_neg hb, hstep.stdout, hf.2.2.2.2.2.2.2.2.2.2.1]
  refine ⟨?_, ?_, ?_, hout env hw hl, ?_, ?_, ?_, ?_, ?_⟩
  · rw [main_bootstrapped env frames hw hl, main_bootstrapped env.all_ok frames hw' hl', hflag]
    by_cases hb : (run_loop env.all_ok frames).2 = true
    · simp only [if_pos hb]
    · simp only [if_neg hb]
  · rw [hcalls, hcalls', ← hflag, ← loop_entry_strip env, List.filter_append,
      List.filter_append, setup_calls_filter,
      filter_loop_calls _ (render_loop_strip_calls frames (loop_entry env))]
    by_cases hb : (run_loop env frames).2 = true
    · simp only [if_pos hb]
      rfl
    · simp only [if_neg hb]
      rfl
  · have hstep := LoopStep.run_loop env frames
    have hstep' := LoopStep.run_loop env.all_ok frames
    rw [main_bootstrapped env frames hw hl, main_bootstrapped env.all_ok frames hw' hl', ← hflag]
    by_cases hb : (run_loop env frames).2 = true
    · have hv : (run_loop env frames).1.vbo = (run_loop env.all_ok frames).1.vbo := by
        rw [hstep.vbo, hstep'.vbo, (loop_entry_fields env).2.2.2.2.1,
          (loop_entry_fields env.all_ok).2.2.2.2.1]
      simp only [if_pos hb, cleanup_eq]
      simp only [World.strip, World.mk.injEq] at hstrip ⊢
      simp [hstrip, hv]
    · simp only [if_neg hb]
      exact hstrip
  · rw [hout env.all_ok hw' hl']
    simp [diagnostics, Env.all_ok]
  · rw [hcalls]
    rcases env with ⟨wc, lo, vc, fc, ln, vl, fl, ll⟩
    cases vc <;> cases fc <;> cases ln <;>
      simp [setup_calls, shader_calls, bootstrap_calls]
  · rw [hcalls]
    simp [setup_calls, geometry_calls]
  · rw [hcalls]
    simp [render_loop_condition frames (loop_entry env)]
  · rw [main_bootstrapped env frames hw hl]
    by_cases hb : (run_loop env frames).2 = true
    · simp only [if_pos hb]
      simp
    · simp only [if_neg hb]
      simp

/-- Witness for C6: the vertex shader fails to compile with log `bad`; the run
still returns 0 after a close request and prints the vertex diagnostic. -/
theorem shader_status_only_reported_witness :
    (main ⟨true, true, false, true, true, "bad", "", ""⟩ [[Event.closeRequested]]).1 =
      (main (Env.all_ok ⟨true, true, false, true, true, "bad", "", ""⟩)
        [[Event.closeRequested]]).1 ∧
    (main ⟨true, true, false, true, true, "bad", "", ""⟩ [[Event.closeRequested]]).2.stdout =
      diagnostics ⟨true, true, false, true, true, "bad", "", ""⟩ :=
  ⟨(shader_status_only_reported ⟨true, true, false, true, true, "bad", "", ""⟩
      [[Event.closeRequested]] rfl rfl).1,
   (shader_status_only_reported ⟨true, true, false, true, true, "bad", "", ""⟩
      [[Event.closeRequested]] rfl rfl).2.2.2.1⟩

/-! ## The program stays current -/

theorem binding_ok_append (p b : Nat) (l₁ l₂ : List Call) :
    binding_ok p b (l₁ ++ l₂) =
      (binding_ok p b l₁ && binding_ok p (l₁.foldl bind_step b) l₂) := by
  induction l₁ generalizing b with
  | nil => simp [binding_ok]
  | cons c rest ih => simp [binding_ok, ih, Bool.and_assoc]

/-- If the check passes, the program is current before every upload and
draw. -/
theorem binding_ok_sound (p b : Nat) (l before after : List Call) (c : Call)
    (hok : binding_ok p b l = true) (hl : l = before ++ c :: after)
    (hc : is_upload_or_draw c = true) : before.foldl bind_step b = p := by
  subst hl
  rw [binding_ok_append] at hok
  simp [binding_ok, hc] at hok
  exact hok.2.1

theorem bind_step_loop_call (b : Nat) (c : Call) (h : is_loop_call c = true) :
    bind_step b c = b := by
  cases c <;> first | rfl | exact absurd h (by simp [is_loop_call])

theorem is_use_program_loop_call (c : Call) (h : is_loop_call c = true) :
    is_use_program c = false := by
  cases c <;> first | rfl | exact absurd h (by simp [is_loop_call])

/-- Loop calls keep the current program, and with the program current they
pass the check. -/
theorem loop_calls_binding (p b : Nat) (l : List Call)
    (h : ∀ c ∈ l, is_loop_call c = true) :
    l.foldl bind_step b = b ∧ binding_ok p p l = true ∧ l.filter is_use_program = [] := by
  induction l generalizing b with
  | nil => simp [binding_ok]
  | cons c rest ih =>
    have hc : is_loop_call c = true := h c (List.mem_cons_self _ _)
    have hrest : ∀ d ∈ rest, is_loop_call d = true :=
      fun d hd => h d (List.mem_cons_of_mem _ hd)
    have hstep : ∀ b', bind_step b' c = b' := fun b' => bind_step_loop_call b' c hc
    have huse : is_use_program c = false := is_use_program_loop_call c hc
    obtain ⟨i₁, i₂, i₃⟩ := ih b hrest
    refine ⟨by rw [List.foldl_cons, hstep, i₁], ?_, ?_⟩
    · simp [binding_ok, hstep, i₂]
    · simp [List.filter_cons, huse, i₃]

/-- The current program of the model agrees with the replay of the calls,
through the loop. -/
theorem LoopStep.bound_agrees {s t : World} (h : LoopStep s t)
    (hs : s.current_program = program_bound s.calls) :
    t.current_program = program_bound t.calls := by
  obtain ⟨added, hcalls, hl⟩ := h.calls
  rw [h.current_program, hs, hcalls, program_bound, program_bound, List.foldl_append,
    (loop_calls_binding 0 _ added hl).1]

/-- C8: in every run of `main` (resize callbacks run only inside the poll of
the loop), before every projection upload and every draw call the program
made current by the calls so far is the shader program, which is not 0; the
whole run makes the program current exactly once, so it is never replaced or
unbound; and the current program of the state agrees with the one read from
the calls. -/
theorem shader_program_current (env : Env) (frames : List (List Event))
    (before after : List Call) (c : Call)
    (hsplit : (main env frames).2.calls = before ++ c :: after)
    (hc : is_upload_or_draw c = true) :
    program_bound before = (main env frames).2.shader_program ∧
    (main env frames).2.shader_program ≠ 0 ∧
    (main env frames).2.calls.filter is_use_program =
      [Call.glUseProgram (main env frames).2.shader_program] ∧
    (main env frames).2.current_program = program_bound (main env frames).2.calls := by
  cases hw : env.window_created with
  | false =>
    rw [main_window_failed env frames hw] at hsplit
    have hmem : c ∈ before ++ c :: after := by simp
    rw [← hsplit] at hmem
    simp at hmem
    rcases hmem with h | h | h | h | h | h <;> rw [h] at hc <;> simp [is_upload_or_draw] at hc
  | true =>
    cases hl : env.loader_ok with
    | false =>
      rw [main_loader_failed env frames hw hl] at hsplit
      have hmem : c ∈ before ++ c :: after := by simp
      rw [← hsplit] at hmem
      simp [bootstrap_calls] at hmem
      rcases hmem with h | h | h | h | h | h | h | h <;> rw [h] at hc <;>
        simp [is_upload_or_draw] at hc
    | true =>
      have hloop := render_loop_strip_calls frames (loop_entry env)
      obtain ⟨b₁, b₂, b₃⟩ := setup_calls_binding env
      obtain ⟨l₁, l₂, l₃⟩ := loop_calls_binding 3 3 _ hloop
      have hstep := LoopStep.run_loop env frames
      have hf := loop_entry_fields env
      have hsp : (main env frames).2.shader_program = 3 := by
        rw [main_bootstrapped env frames hw hl]
        by_cases hb : (run_loop env frames).2 = true
        · simp only [if_pos hb, cleanup_eq, hstep.shader_program, hf.1]
        · simp only [if_neg hb, hstep.shader_program, hf.1]
      have hentry : (loop_entry env).current_program = program_bound (loop_entry env).calls := by
        rw [hf.2.2.2.2.2.1, hf.2.2.2.2.2.2.2.2.2.2.2, program_bound, b₂]
      have hcur := hstep.bound_agrees hentry
      have hcalls := main_calls env frames hw hl
      have hok : binding_ok 3 0 (main env frames).2.calls = true := by
        rw [hcalls, binding_ok_append, binding_ok_append, List.foldl_append, b₁, b₂, l₂, l₁]
        by_cases hb : (run_loop env frames).2 = true
        · simp only [if_pos hb]; rfl
        · simp only [if_neg hb]; rfl
      refine ⟨?_, ?_, ?_, ?_⟩
      · rw [hsp]
        exact binding_ok_sound 3 0 _ before after c hok hsplit hc
      · rw [hsp]; decide
      · rw [hsp, hcalls, List.filter_append, List.filter_append, b₃, l₃]
        by_cases hb : (run_loop env frames).2 = true
        · simp only [if_pos hb]; rfl
        · simp only [if_neg hb]; rfl
      · rw [main_bootstrapped env frames hw hl]
        by_cases hb : (run_loop env frames).2 = true
        · simp only [if_pos hb, cleanup_eq]
          rw [hstep.current_program, hstep.vao, hstep.vbo, hstep.shader_program]
          rw [hstep.current_program] at hcur
          rw [hcur, program_bound, program_bound, List.foldl_append]
          simp [cleanup_calls, bind_step]
        · simp only [if_neg hb]
          exact hcur

/-- Witness for C8: in the run with all statuses true, stopped at the first
evaluation of the loop condition, the initial upload of line 118 happens with
program 3 current. -/
theorem shader_program_current_witness :
    program_bound
      (bootstrap_calls ++ shader_calls ⟨true, true, true, true, true, "", "", ""⟩ 1 ++
        geometry_calls 1 1 ++ [Call.glUseProgram 3, Call.glGetUniformLocation 3 "projection"]) =
      (main ⟨true, true, true, true, true, "", "", ""⟩ []).2.shader_program :=
  (shader_program_current ⟨true, true, true, true, true, "", "", ""⟩ []
    (bootstrap_calls ++ shader_calls ⟨true, true, true, true, true, "", "", ""⟩ 1 ++
      geometry_calls 1 1 ++ [Call.glUseProgram 3, Call.glGetUniformLocation 3 "projection"])
    [Call.glBindVertexArray 1, Call.glfwWindowShouldClose]
    (Call.glUniformMatrix4fv 0 (Floats.finite main.ortho))
    (by
      rw [main_calls _ _ rfl rfl]
      simp [setup_calls, projection_calls, run_loop, render_loop, glfwWindowShouldClose,
        World.log, World.strip, loop_entry_eq])
    rfl).1

/-! ## Shader objects -/

theorem setup_calls_count (env : Env) :
    (setup_calls env).count (Call.glDeleteShader 1) = 1 ∧
    (setup_calls env).count (Call.glDeleteShader 2) = 1 := by
  rcases env with ⟨wc, lo, vc, fc, ln, vl, fl, ll⟩
  cases vc <;> cases fc <;> cases ln <;> exact ⟨rfl, rfl⟩

/-- C9: for every combination of the three statuses and every start state, the
calls of the shader set-up split at the link call: before it neither shader is
deleted, after it each of the two (distinct) shaders is deleted exactly once;
and in a whole run of `main` with a successful bootstrap each is deleted
exactly once. -/
theorem shaders_deleted_once_after_link (env : Env) (s : World) :
    (shader_setup env s).vertex_shader ≠ (shader_setup env s).fragment_shader ∧
    (∃ before after : List Call,
      (shader_setup env s).calls =
        s.calls ++ before ++ Call.glLinkProgram (shader_setup env s).shader_program :: after ∧
      before.count (Call.glDeleteShader (shader_setup env s).vertex_shader) = 0 ∧
      before.count (Call.glDeleteShader (shader_setup env s).fragment_shader) = 0 ∧
      after.count (Call.glDeleteShader (shader_setup env s).vertex_shader) = 1 ∧
      after.count (Call.glDeleteShader (shader_setup env s).fragment_shader) = 1 ∧
      (∀ c ∈ before ++ after, c ≠ Call.glLinkProgram (shader_setup env s).shader_program)) ∧
    (∀ frames : List (List Event), env.window_created = true → env.loader_ok = true →
      (main env frames).2.calls.count (Call.glDeleteShader (loop_entry env).vertex_shader) = 1 ∧
      (main env frames).2.calls.count (Call.glDeleteShader (loop_entry env).fragment_shader) = 1) := by
  refine ⟨?_, ?_, ?_⟩
  · rw [shader_setup_eq]
    simp
  · refine ⟨[Call.glCreateShader ShaderKind.vertex,
        Call.glShaderSource s.next_object vertex_shader_source,
        Call.glCompileShader s.next_object, Call.glGetShaderiv s.next_object] ++
      (if env.vertex_compiled = false then [Call.glGetShaderInfoLog s.next_object] else []) ++
      [Call.glCreateShader ShaderKind.fragment,
        Call.glShaderSource (s.next_object + 1) fragment_shader_source,
        Call.glCompileShader (s.next_object + 1), Call.glGetShaderiv (s.next_object + 1)] ++
      (if env.fragment_compiled = false then [Call.glGetShaderInfoLog (s.next_object + 1)]
        else []) ++
      [Call.glCreateProgram, Call.glAttachShader (s.next_object + 2) s.next_object,
        Call.glAttachShader (s.next_object + 2) (s.next_object + 1)],
      [Call.glGetProgramiv (s.next_object + 2)] ++
      (if env.linked = false then [Call.glGetProgramInfoLog (s.next_object + 2)] else []) ++
      [Call.glDeleteShader s.next_object, Call.glDeleteShader (s.next_object + 1)], ?_⟩
    rw [shader_setup_eq]
    rcases env with ⟨wc, lo, vc, fc, ln, vl, fl, ll⟩
    cases vc <;> cases fc <;> cases ln <;> simp [shader_calls]
  · intro frames hw hl
    have hloop := render_loop_strip_calls frames (loop_entry env)
    have hcount : ∀ n : Nat,
        (render_loop frames (loop_entry env).strip).1.calls.count (Call.glDeleteShader n) = 0 := by
      intro n
      rw [List.count_eq_zero]
      intro hmem
      have := hloop _ hmem
      simp [is_loop_call] at this
    have hf := loop_entry_fields env
    have hclean : ∀ n : Nat, (if (run_loop env frames).2 = true then cleanup_calls 1 1 3
        else []).count (Call.glDeleteShader n) = 0 := by
      intro n
      by_cases hb : (run_loop env frames).2 = true
      · simp only [if_pos hb]; rfl
      · simp only [if_neg hb]; rfl
    rw [main_calls env frames hw hl, hf.2.1, hf.2.2.1]
    simp only [List.count_append, hcount, hclean, (setup_calls_count env).1,
      (setup_calls_count env).2]
    exact ⟨trivial, trivial⟩

/-- Witness for C9: with both shaders failing to compile and a successful
bootstrap, the whole run deletes shader 1 once. -/
theorem shaders_deleted_once_after_link_witness :
    (main ⟨true, true, false, false, true, "", "", ""⟩ []).2.calls.count
      (Call.glDeleteShader (loop_entry ⟨true, true, false, false, true, "", "", ""⟩).vertex_shader)
      = 1 :=
  ((shaders_deleted_once_after_link ⟨true, true, false, false, true, "", "", ""⟩
    World.initial).2.2 [] rfl rfl).1

/-! ## Initial projection -/

/-- C10: the matrix `main` uploads before the first frame equals, as a list
and entry for entry, the matrix `framebuffer_size_callback` builds for
`(800, 600)`; it is the value of the `projection` uniform at loop entry and at
the first draw call, and a resize to `(800, 600)` delivered at loop entry
leaves every uniform as it is. -/
theorem main_ortho_eq_callback_ortho (env : Env) :
    main.ortho = framebuffer_size_callback.ortho 800 600 ∧
    (∀ i j : Fin 4, entry main.ortho i j = entry (framebuffer_size_callback.ortho 800 600) i j) ∧
    Call.glUniformMatrix4fv 0 (Floats.finite (framebuffer_size_callback.ortho 800 600)) ∈
      (loop_entry env).calls ∧
    (loop_entry env).uniforms (loop_entry env).shader_program (uniform_location "projection") =
      some (Floats.finite (framebuffer_size_callback.ortho 800 600)) ∧
    (clear_frame (glfwWindowShouldClose (loop_entry env)).2).uniforms
        (loop_entry env).shader_program (uniform_location "projection") =
      some (Floats.finite (framebuffer_size_callback.ortho 800 600)) ∧
    (framebuffer_size_callback 800 600 (loop_entry env)).uniforms = (loop_entry env).uniforms := by
  have heq : main.ortho = framebuffer_size_callback.ortho 800 600 := by
    simp [main.ortho, framebuffer_size_callback.ortho, width, height]
  have hf := loop_entry_fields env
  have hu : (loop_entry env).uniforms (loop_entry env).shader_program
      (uniform_location "projection") =
      some (Floats.finite (framebuffer_size_callback.ortho 800 600)) := by
    rw [hf.1, ← heq, ← hf.2.2.2.2.2.2.2.2.2.1]
    rfl
  refine ⟨heq, fun i j => by rw [heq], ?_, hu, ?_, ?_⟩
  · rw [hf.2.2.2.2.2.2.2.2.2.2.2, ← heq]
    simp [setup_calls, projection_calls]
  · rw [clear_frame_uniforms]
    exact hu
  · funext p l
    have hcur : (loop_entry env).current_program = 3 := hf.2.2.2.2.2.1
    simp only [framebuffer_size_callback, glViewport, glUniformMatrix4fv, glGetUniformLocation,
      World.log, hcur]
    split
    · rename_i hc
      have hfin : framebuffer_size_callback.ortho_floats 800 600 =
          Floats.finite (framebuffer_size_callback.ortho 800 600) := rfl
      rw [hc.1, hc.2.1, hfin, ← heq, ← hf.2.2.2.2.2.2.2.2.2.1]
      rfl
    · rfl

end LineDrawing
